import Mathlib

/-!
Shallow embedding of the `bufstream` crate (`src/lib.rs`): `BufStream` is a
`std::io::BufReader` wrapped around an `InternalBufWriter` (an optional
`std::io::BufWriter`) wrapped around a duplex resource.  Bytes are `Nat`s.
The underlying resource is a deterministic test double that records every
call it receives (read / write / flush counters plus the byte log), serves
reads from a pending queue (end-of-stream when empty), and can be configured
to fail any of the three operations.  Resource writes are all-or-nothing:
either the whole slice is accepted and its length returned, or the configured
error is returned and nothing is accepted; this is the special case of the
Rust `Write` contract the proofs use.  `Option` models panics: the `.unwrap()`
calls on the internal optional slot return `none` when the slot is empty.
-/

set_option autoImplicit false

/-- An `std::io::Error` as far as it is observable here: an error kind, the
`Display` message, and any extra payload (OS error code or wrapped source
error).  `io::Error::new(kind, msg)` builds an error with no payload. -/
structure IoError where
  kind : Nat
  msg : String
  payload : Option Nat
  deriving Repr, DecidableEq

/-- `io::Error::new(kind, msg)`: a fresh error carrying only a kind and a
message, with no OS code or wrapped source. -/
def IoError.new (k : Nat) (m : String) : IoError :=
  { kind := k, msg := m, payload := none }

/-- The duplex resource wrapped by the stream: a log of all bytes it has
received through `write` (in order), a queue of bytes it serves through
`read` (empty queue = end of stream), one call counter per operation, and an
optional configured failure per operation. -/
structure Resource where
  received : List Nat
  pending : List Nat
  readCalls : Nat
  writeCalls : Nat
  flushCalls : Nat
  readErr : Option IoError
  writeErr : Option IoError
  flushErr : Option IoError
  deriving Repr, DecidableEq

/-- Resource `read`: serve up to `n` bytes from the pending queue (zero bytes
at end of stream), or fail with the configured read error.  Either way the
call is counted. -/
def Resource.readBytes (r : Resource) (n : Nat) :
    Except IoError (List Nat) × Resource :=
  let r1 := { r with readCalls := r.readCalls + 1 }
  match r.readErr with
  | some e => (.error e, r1)
  | none => (.ok (r.pending.take n), { r1 with pending := r.pending.drop n })

/-- Resource `write`: accept the whole slice and return its length, or fail
with the configured write error accepting nothing.  Either way the call is
counted. -/
def Resource.writeBytes (r : Resource) (data : List Nat) :
    Except IoError Nat × Resource :=
  let r1 := { r with writeCalls := r.writeCalls + 1 }
  match r.writeErr with
  | some e => (.error e, r1)
  | none => (.ok data.length, { r1 with received := r.received ++ data })

/-- Resource `flush`: succeed, or fail with the configured flush error.
Either way the call is counted. -/
def Resource.flushRes (r : Resource) : Except IoError Unit × Resource :=
  let r1 := { r with flushCalls := r.flushCalls + 1 }
  match r.flushErr with
  | some e => (.error e, r1)
  | none => (.ok (), r1)

/-- `std::io::BufWriter`: the staged output bytes (a prefix of a region of
capacity `cap`), the configured capacity, and the owned resource. -/
structure BufWriter where
  buf : List Nat
  cap : Nat
  inner : Resource
  deriving Repr, DecidableEq

/-- `BufWriter::flush_buf`: write the staged bytes to the resource and drain
what was written.  With the all-or-nothing resource of this model the loop
makes no call when the buffer is empty, and otherwise makes exactly one
resource write that either drains everything or fails leaving the buffer
intact. -/
def BufWriter.flushBuf (w : BufWriter) : Except IoError Unit × BufWriter :=
  if w.buf.isEmpty then (.ok (), w)
  else
    match w.inner.writeBytes w.buf with
    | (.error e, r1) => (.error e, { w with inner := r1 })
    | (.ok _, r1) => (.ok (), { w with buf := [], inner := r1 })

/-- `BufWriter::into_inner`: flush the staged bytes; on success hand back the
resource, on failure hand back the intact writer together with the error
(which may still carry an OS code or source payload at this point). -/
def BufWriter.intoInner (w : BufWriter) :
    Except (IoError × BufWriter) Resource :=
  match w.flushBuf with
  | (.error e, w1) => .error (e, w1)
  | (.ok _, w1) => .ok w1.inner

/-- The `BufStream` state: the `BufReader` half is the filled region `rbuf`
(bytes from `rpos` on are the unconsumed window), the read cursor `rpos` and
the configured read capacity `rcap`; `slot` is `InternalBufWriter`'s
`Option<BufWriter<S>>`. -/
structure BufStream where
  rbuf : List Nat
  rpos : Nat
  rcap : Nat
  slot : Option BufWriter
  deriving Repr, DecidableEq

/-- `BufStream::with_capacities`: fresh reader state over a fresh writer of
the given capacity over the resource; the optional slot starts out occupied. -/
def BufStream.withCapacities (readerCap writerCap : Nat) (inner : Resource) :
    BufStream :=
  { rbuf := [], rpos := 0, rcap := readerCap,
    slot := some { buf := [], cap := writerCap, inner := inner } }

/-- Default reader/writer capacity, 64 KiB. -/
def DEFAULT_BUF_SIZE : Nat := 64 * 1024

/-- `BufStream::new`: default capacities. -/
def BufStream.mkNew (inner : Resource) : BufStream :=
  BufStream.withCapacities DEFAULT_BUF_SIZE DEFAULT_BUF_SIZE inner

/-- `InternalBufWriter::read`: `self.get_mut().get_mut().read(buf)` — through
the optional slot (panicking if it is empty) and through `BufWriter::get_mut`
straight to the resource, bypassing the staged output bytes. -/
def internalRead (slot : Option BufWriter) (n : Nat) :
    Option (Except IoError (List Nat) × Option BufWriter) :=
  match slot with
  | none => none
  | some w =>
    match w.inner.readBytes n with
    | (res, r1) => some (res, some { w with inner := r1 })

/-- `BufReader::fill_buf` as instantiated by the crate: when the window is
exhausted, refill it with one bulk read of up to `rcap` bytes from the inner
reader (`InternalBufWriter::read`); return the unconsumed window. -/
def BufStream.fillBuf (s : BufStream) :
    Option (Except IoError (List Nat) × BufStream) :=
  if s.rpos = s.rbuf.length then
    match internalRead s.slot s.rcap with
    | none => none
    | some (.error e, slot1) => some (.error e, { s with slot := slot1 })
    | some (.ok bytes, slot1) =>
      some (.ok bytes, { s with rbuf := bytes, rpos := 0, slot := slot1 })
  else
    some (.ok (s.rbuf.drop s.rpos), s)

/-- `BufReader::consume`: advance the cursor, clamped to the filled region. -/
def BufStream.consume (s : BufStream) (amt : Nat) : BufStream :=
  { s with rpos := min (s.rpos + amt) s.rbuf.length }

/-- `BufReader::read` as instantiated by the crate: with an empty window and a
destination at least as large as the capacity, bypass the internal buffer and
read straight from the inner reader; otherwise refill via `fill_buf`, copy as
much of the window as fits and consume it.  The returned list is the bytes
placed in the destination. -/
def BufStream.read (s : BufStream) (destLen : Nat) :
    Option (Except IoError (List Nat) × BufStream) :=
  if s.rpos = s.rbuf.length ∧ s.rcap ≤ destLen then
    match internalRead s.slot destLen with
    | none => none
    | some (res, slot1) => some (res, { s with slot := slot1 })
  else
    match s.fillBuf with
    | none => none
    | some (.error e, s1) => some (.error e, s1)
    | some (.ok window, s1) =>
      let n := min window.length destLen
      some (.ok (window.take n), s1.consume n)

/-- `impl Write for BufStream`, `write` (src/lib.rs:153-155):
`self.inner.get_mut().0.as_mut().unwrap().get_mut().write(buf)` — through the
optional slot to the `BufWriter` and then through `BufWriter::get_mut` to the
underlying resource itself, so the bytes are handed to the resource at once
and the staged output region is never touched. -/
def BufStream.write (s : BufStream) (data : List Nat) :
    Option (Except IoError Nat × BufStream) :=
  match s.slot with
  | none => none
  | some w =>
    match w.inner.writeBytes data with
    | (res, r1) => some (res, { s with slot := some { w with inner := r1 } })

/-- `impl Write for BufStream`, `flush` (src/lib.rs:156-158):
`self.inner.get_mut().0.as_mut().unwrap().get_mut().flush()` — the resource's
own flush, through the slot and `BufWriter::get_mut`. -/
def BufStream.flush (s : BufStream) :
    Option (Except IoError Unit × BufStream) :=
  match s.slot with
  | none => none
  | some w =>
    match w.inner.flushRes with
    | (res, r1) => some (res, { s with slot := some { w with inner := r1 } })

/-- `BufStream::get_ref` / `get_mut`: reach the underlying resource through
the optional slot (`InternalBufWriter::get_ref`/`get_mut` unwrap the slot,
panicking when it is empty). -/
def BufStream.getRef (s : BufStream) : Option Resource :=
  match s.slot with
  | none => none
  | some w => some w.inner

/-- `BufStream::into_inner` (src/lib.rs:124-138): take the writer out of the
optional slot (panic if empty), dissolve it via `BufWriter::into_inner`; on
success return the resource (the reader state is dropped); on failure rebuild
the error with `io::Error::new(err.error().kind(), err.error().to_string())`,
put the returned writer back into the slot, and pair the reassembled stream
with that error. -/
def BufStream.intoInner (s : BufStream) :
    Option (Except (BufStream × IoError) Resource) :=
  match s.slot with
  | none => none
  | some w =>
    match w.intoInner with
    | .ok r => some (.ok r)
    | .error (e, w2) =>
      some (.error ({ s with slot := some w2 }, IoError.new e.kind e.msg))

/-- Sequence of `BufStream::write` calls, stopping at the first panic or
error. -/
def BufStream.writeList (s : BufStream) (ws : List (List Nat)) :
    Option (Except IoError BufStream) :=
  match ws with
  | [] => some (.ok s)
  | d :: rest =>
    match s.write d with
    | none => none
    | some (.error e, _) => some (.error e)
    | some (.ok _, s1) => s1.writeList rest

/-- A fresh resource: nothing received, nothing pending, no calls, no
configured failures. -/
def freshRes : Resource :=
  { received := [], pending := [], readCalls := 0, writeCalls := 0,
    flushCalls := 0, readErr := none, writeErr := none, flushErr := none }

/-- The five bytes of `"hello"`. -/
def helloBytes : List Nat := [104, 101, 108, 108, 111]

/-- A resource that accepts every write but fails its `flush` with an error
that carries an OS-code payload. -/
def flushFailRes : Resource :=
  { freshRes with flushErr := some { kind := 3, msg := "flush failed", payload := some 7 } }

/-- C1: the claim says a write of `k` bytes with `k` < write-capacity and an
empty output buffer stages the bytes and performs no resource write.  The
code's `Write` impl reaches through `BufWriter::get_mut` to the raw resource,
so writing the 5 bytes `"hello"` at capacity 1024 performs one immediate
resource write of exactly those bytes, leaving nothing staged. -/
theorem c1_small_write_goes_straight_to_resource :
    ∃ s1, (BufStream.withCapacities 1024 1024 freshRes).write helloBytes = some (.ok 5, s1) ∧
      s1.getRef = some { freshRes with received := helloBytes, writeCalls := 1 } ∧
      Resource.writeCalls { freshRes with received := helloBytes, writeCalls := 1 } ≠
        Resource.writeCalls freshRes :=
  ⟨_, rfl, rfl, by decide⟩

/-- C2: in the end-to-end scenario (capacity 1024, write `"hello"`, flush,
then a read at end-of-stream) the claim requires the resource to have seen
zero bytes before the flush; the code hands `"hello"` to the resource already
at write time (one write call), flush adds exactly one resource flush call
and no bytes, and the end-of-stream read returns zero bytes without error. -/
theorem c2_end_to_end_scenario_diverges :
    ∃ s1, (BufStream.withCapacities 1024 1024 freshRes).write helloBytes = some (.ok 5, s1) ∧
      s1.getRef = some { freshRes with received := helloBytes, writeCalls := 1 } ∧
      Resource.received { freshRes with received := helloBytes, writeCalls := 1 } ≠ [] ∧
      (∃ s2, s1.flush = some (.ok (), s2) ∧
        s2.getRef = some { freshRes with received := helloBytes, writeCalls := 1, flushCalls := 1 } ∧
        ∃ s3, s2.read 10 = some (.ok [], s3)) :=
  ⟨_, rfl, rfl, by decide, _, rfl, rfl, _, rfl⟩

/-- C4: the claim says that over a resource whose flush fails, `into_inner`
returns an error pairing the flush error with a reconstructed stream holding
the unflushed bytes.  In the code the output buffer is always empty (writes
bypass it) and `BufWriter::into_inner` never calls the resource's flush, so
after writing `"hello"` over a resource whose flush always fails,
`into_inner` still returns `Ok` with the resource. -/
theorem c4_into_inner_never_observes_flush_failure :
    ∃ s1, (BufStream.withCapacities 1024 1024 flushFailRes).write helloBytes = some (.ok 5, s1) ∧
      s1.intoInner = some (.ok { flushFailRes with received := helloBytes, writeCalls := 1 }) :=
  ⟨_, rfl, rfl⟩

/-- A stream state with two unconsumed input-buffer bytes, one staged output
byte, and a resource whose write fails with a payload-carrying error. -/
def c5Stream : BufStream :=
  { rbuf := [7, 8], rpos := 0, rcap := 4,
    slot := some { buf := [1], cap := 4,
                   inner := { freshRes with writeErr := some { kind := 2, msg := "boom", payload := some 9 } } } }

/-- C5 counterexample: the claim says unwrap discards unconsumed input-buffer
bytes on the failure path as well.  On a state with unconsumed bytes `[7, 8]`
and a failing flush, `into_inner` returns the reconstructed stream with those
bytes still in the input buffer at the same cursor — they are retained, not
discarded. -/
theorem c5_counterexample :
    c5Stream.intoInner =
      some (.error (
        { rbuf := [7, 8], rpos := 0, rcap := 4,
          slot := some { buf := [1], cap := 4,
                         inner := { freshRes with
                                    writeErr := some { kind := 2, msg := "boom", payload := some 9 },
                                    writeCalls := 1 } } },
        IoError.new 2 "boom")) ∧
    List.drop c5Stream.rpos c5Stream.rbuf ≠ [] :=
  ⟨rfl, by decide⟩

/-- C5 (amended): on unwrap success the unconsumed input-buffer bytes are
discarded (only the resource comes back, its pending queue unchanged — the
window bytes are not restored to it); on unwrap failure the reconstructed
stream retains the input buffer's contents and cursor unchanged, alongside
the output buffer's staged bytes and capacity. -/
theorem c5_unwrap_keeps_reader_state_on_failure (s : BufStream) (w : BufWriter)
    (hs : s.slot = some w) :
    (∀ r, s.intoInner = some (.ok r) → r.pending = w.inner.pending)
    ∧ (∀ s1 e, s.intoInner = some (.error (s1, e)) →
        s1.rbuf = s.rbuf ∧ s1.rpos = s.rpos ∧
        ∃ w1, s1.slot = some w1 ∧ w1.buf = w.buf ∧ w1.cap = w.cap) := by
  by_cases hb : w.buf.isEmpty
  · constructor
    · intro r hr
      simp [BufStream.intoInner, hs, BufWriter.intoInner, BufWriter.flushBuf, hb] at hr
      subst hr
      rfl
    · intro s1 e h
      simp [BufStream.intoInner, hs, BufWriter.intoInner, BufWriter.flushBuf, hb] at h
  · cases hw : w.inner.writeErr with
    | some f =>
      constructor
      · intro r hr
        simp [BufStream.intoInner, hs, BufWriter.intoInner, BufWriter.flushBuf, hb,
              Resource.writeBytes, hw] at hr
      · intro s1 e h
        simp [BufStream.intoInner, hs, BufWriter.intoInner, BufWriter.flushBuf, hb,
              Resource.writeBytes, hw] at h
        obtain ⟨h1, -⟩ := h
        subst h1
        exact ⟨rfl, rfl, _, rfl, rfl, rfl⟩
    | none =>
      constructor
      · intro r hr
        simp [BufStream.intoInner, hs, BufWriter.intoInner, BufWriter.flushBuf, hb,
              Resource.writeBytes, hw] at hr
        subst hr
        rfl
      · intro s1 e h
        simp [BufStream.intoInner, hs, BufWriter.intoInner, BufWriter.flushBuf, hb,
              Resource.writeBytes, hw] at h

/-- Witness for C5's amended theorem at the concrete state `c5Stream`. -/
theorem c5_unwrap_keeps_reader_state_on_failure_witness :
    (∀ r, c5Stream.intoInner = some (.ok r) →
      r.pending = Resource.pending { freshRes with writeErr := some { kind := 2, msg := "boom", payload := some 9 } })
    ∧ (∀ s1 e, c5Stream.intoInner = some (.error (s1, e)) →
        s1.rbuf = c5Stream.rbuf ∧ s1.rpos = c5Stream.rpos ∧
        ∃ w1, s1.slot = some w1 ∧ w1.buf = [1] ∧ w1.cap = 4) :=
  c5_unwrap_keeps_reader_state_on_failure c5Stream
    { buf := [1], cap := 4,
      inner := { freshRes with writeErr := some { kind := 2, msg := "boom", payload := some 9 } } }
    rfl

/-- C7 counterexample: the claim says zero-length writes and zero-length reads
trigger no call on the underlying resource.  On a fresh stream of capacity 4,
a zero-byte write is handed straight to the resource (its write-call counter
becomes 1) and a zero-length read refills the empty window with one resource
read (its read-call counter becomes 1). -/
theorem c7_counterexample :
    (BufStream.withCapacities 4 4 freshRes).write [] =
      some (.ok 0,
        { rbuf := [], rpos := 0, rcap := 4,
          slot := some { buf := [], cap := 4, inner := { freshRes with writeCalls := 1 } } }) ∧
    Resource.writeCalls { freshRes with writeCalls := 1 } ≠ Resource.writeCalls freshRes ∧
    (BufStream.withCapacities 4 4 freshRes).read 0 =
      some (.ok [],
        { rbuf := [], rpos := 0, rcap := 4,
          slot := some { buf := [], cap := 4, inner := { freshRes with readCalls := 1 } } }) ∧
    Resource.readCalls { freshRes with readCalls := 1 } ≠ Resource.readCalls freshRes :=
  ⟨rfl, by decide, rfl, by decide⟩

/-- C7 (amended): a zero-byte write is forwarded to the resource as exactly
one write call and (on a resource that accepts it) returns success with zero
bytes written and appends nothing to the byte log; a zero-length read returns
zero bytes, making exactly one resource read to refill when the unconsumed
window is empty (and the capacity is positive), and no resource call when the
window is nonempty. -/
theorem c7_zero_length_ops (s : BufStream) (w : BufWriter) (hs : s.slot = some w) :
    (w.inner.writeErr = none →
      s.write [] = some (.ok 0, { s with slot := some { w with inner := { w.inner with
        writeCalls := w.inner.writeCalls + 1 } } }))
    ∧ (s.rpos = s.rbuf.length → 0 < s.rcap → w.inner.readErr = none →
      s.read 0 = some (.ok [], { s with
        rbuf := w.inner.pending.take s.rcap,
        rpos := 0,
        slot := some { w with inner := { w.inner with
          pending := w.inner.pending.drop s.rcap,
          readCalls := w.inner.readCalls + 1 } } }))
    ∧ (s.rpos < s.rbuf.length → s.read 0 = some (.ok [], s)) := by
  refine ⟨?_, ?_, ?_⟩
  · intro hw
    simp [BufStream.write, hs, Resource.writeBytes, hw]
  · intro hpos hcap hre
    have hnotle : ¬ s.rcap ≤ 0 := by omega
    simp [BufStream.read, hpos, hnotle, BufStream.fillBuf, internalRead, hs,
          Resource.readBytes, hre, BufStream.consume]
  · intro hlt
    have hne : ¬ s.rpos = s.rbuf.length := by omega
    have hmin : min s.rpos s.rbuf.length = s.rpos := by omega
    simp [BufStream.read, hne, BufStream.fillBuf, BufStream.consume, hmin]

/-- Concrete state for the C7 witness: a stream with a partially consumed
input window over a resource with one pending byte. -/
def c7w : BufWriter :=
  { buf := [], cap := 4, inner := { freshRes with pending := [9] } }

/-- Concrete stream for the C7 witness. -/
def c7s : BufStream :=
  { rbuf := [3, 4], rpos := 1, rcap := 4, slot := some c7w }

/-- Witness for C7's amended theorem at the concrete stream `c7s`. -/
theorem c7_zero_length_ops_witness :
    (c7w.inner.writeErr = none →
      c7s.write [] = some (.ok 0, { c7s with slot := some { c7w with inner := { c7w.inner with
        writeCalls := c7w.inner.writeCalls + 1 } } }))
    ∧ (c7s.rpos = c7s.rbuf.length → 0 < c7s.rcap → c7w.inner.readErr = none →
      c7s.read 0 = some (.ok [], { c7s with
        rbuf := c7w.inner.pending.take c7s.rcap,
        rpos := 0,
        slot := some { c7w with inner := { c7w.inner with
          pending := c7w.inner.pending.drop c7s.rcap,
          readCalls := c7w.inner.readCalls + 1 } } }))
    ∧ (c7s.rpos < c7s.rbuf.length → c7s.read 0 = some (.ok [], c7s)) :=
  c7_zero_length_ops c7s c7w rfl

/-- Any sequence of `BufStream::write` calls over a resource that accepts
writes succeeds and simply appends the concatenation of the written slices to
the resource's byte log, one resource write call per `write` call; the reader
state and the staged output buffer are untouched. -/
theorem writeList_appends (ws : List (List Nat)) (rb : List Nat) (rp rc : Nat)
    (wb : List Nat) (wc : Nat) (r : Resource) (hw : r.writeErr = none) :
    BufStream.writeList
        { rbuf := rb, rpos := rp, rcap := rc, slot := some { buf := wb, cap := wc, inner := r } } ws
      = some (.ok { rbuf := rb, rpos := rp, rcap := rc,
                    slot := some { buf := wb, cap := wc, inner := { r with
                      received := r.received ++ ws.flatten,
                      writeCalls := r.writeCalls + ws.length } } }) := by
  obtain ⟨re, pe, rca, wca, fca, rerr, werr, ferr⟩ := r
  have hw1 : werr = none := hw
  subst hw1
  induction ws generalizing re wca with
  | nil => simp [BufStream.writeList]
  | cons d rest ih =>
    simp only [BufStream.writeList, BufStream.write, Resource.writeBytes]
    rw [ih (re ++ d) (wca + 1) rfl]
    simp [List.append_assoc]
    omega

/-- C3: over a resource whose writes and flushes succeed (`writeErr = none`,
`flushErr = none`), a stream constructed with any capacities accepts any
sequence of writes without panic or error, and `into_inner` then returns `Ok`
with the underlying resource (`r1`).  The returned resource is the original
one: its byte log has been extended by exactly the concatenation of the
written slices (`res.received ++ ws.flatten` — every written byte delivered
once, in write order, with no duplication and no loss), it saw one resource
write call per `write` call, and every other part of its state — pending
input, read and flush call counts, failure configuration — is unchanged. -/
theorem c3_unwrap_returns_resource_with_exact_bytes (rc wc : Nat) (res : Resource)
    (ws : List (List Nat)) (hw : res.writeErr = none) (_hf : res.flushErr = none) :
    ∃ s1, (BufStream.withCapacities rc wc res).writeList ws = some (.ok s1) ∧
      ∃ r1, s1.intoInner = some (.ok r1) ∧
        r1.received = res.received ++ ws.flatten ∧
        r1.pending = res.pending ∧
        r1.readCalls = res.readCalls ∧
        r1.writeCalls = res.writeCalls + ws.length ∧
        r1.flushCalls = res.flushCalls ∧
        r1.readErr = res.readErr ∧
        r1.writeErr = res.writeErr ∧
        r1.flushErr = res.flushErr := by
  refine ⟨_, writeList_appends ws [] 0 rc [] wc res hw, ?_⟩
  exact ⟨_, rfl, rfl, rfl, rfl, rfl, rfl, rfl, rfl, rfl⟩

/-- Witness for C3 at a concrete run of two writes. -/
theorem c3_unwrap_returns_resource_with_exact_bytes_witness :
    ∃ s1, (BufStream.withCapacities 4 4 freshRes).writeList [[1, 2], [3]] = some (.ok s1) ∧
      ∃ r1, s1.intoInner = some (.ok r1) ∧
        r1.received = freshRes.received ++ [[1, 2], [3]].flatten ∧
        r1.pending = freshRes.pending ∧
        r1.readCalls = freshRes.readCalls ∧
        r1.writeCalls = freshRes.writeCalls + [[1, 2], [3]].length ∧
        r1.flushCalls = freshRes.flushCalls ∧
        r1.readErr = freshRes.readErr ∧
        r1.writeErr = freshRes.writeErr ∧
        r1.flushErr = freshRes.flushErr :=
  c3_unwrap_returns_resource_with_exact_bytes 4 4 freshRes [[1, 2], [3]] rfl rfl

/-- C6: the two buffers are independent: a `write` call leaves the input
buffer's contents and read cursor unchanged, and a `read` call leaves the
staged output buffer's contents (and capacity) unchanged — for every stream
state, every payload and every destination size. -/
theorem c6_read_write_buffers_independent (s : BufStream) (w : BufWriter)
    (data : List Nat) (n : Nat) (hs : s.slot = some w) :
    (∀ res s1, s.write data = some (res, s1) → s1.rbuf = s.rbuf ∧ s1.rpos = s.rpos)
    ∧ (∀ res s1, s.read n = some (res, s1) →
        ∃ w1, s1.slot = some w1 ∧ w1.buf = w.buf ∧ w1.cap = w.cap) := by
  constructor
  · intro res s1 h
    rcases hwb : w.inner.writeBytes data with ⟨res0, r1⟩
    simp [BufStream.write, hs, hwb] at h
    obtain ⟨-, h2⟩ := h
    subst h2
    exact ⟨rfl, rfl⟩
  · intro res s1 h
    unfold BufStream.read at h
    by_cases hc : s.rpos = s.rbuf.length ∧ s.rcap ≤ n
    · rw [if_pos hc] at h
      rcases hrb : w.inner.readBytes n with ⟨res0, r1⟩
      simp [internalRead, hs, hrb] at h
      obtain ⟨-, h2⟩ := h
      subst h2
      exact ⟨_, rfl, rfl, rfl⟩
    · rw [if_neg hc] at h
      by_cases hp : s.rpos = s.rbuf.length
      · rcases hrb : w.inner.readBytes s.rcap with ⟨res0, r1⟩
        cases res0 with
        | error e =>
          simp [BufStream.fillBuf, hp, internalRead, hs, hrb] at h
          obtain ⟨-, h2⟩ := h
          subst h2
          exact ⟨_, rfl, rfl, rfl⟩
        | ok bytes =>
          simp [BufStream.fillBuf, hp, internalRead, hs, hrb, BufStream.consume] at h
          obtain ⟨-, h2⟩ := h
          subst h2
          exact ⟨_, rfl, rfl, rfl⟩
      · simp [BufStream.fillBuf, hp, BufStream.consume] at h
        obtain ⟨-, h2⟩ := h
        subst h2
        exact ⟨w, hs, rfl, rfl⟩

/-- Writer component of the C6 witness stream. -/
def c6w : BufWriter := { buf := [], cap := 4, inner := freshRes }

/-- Witness for C6 at a fresh stream, a two-byte write and a three-byte read. -/
theorem c6_read_write_buffers_independent_witness :
    (∀ res s1, (BufStream.withCapacities 4 4 freshRes).write [1, 2] = some (res, s1) →
      s1.rbuf = (BufStream.withCapacities 4 4 freshRes).rbuf ∧
      s1.rpos = (BufStream.withCapacities 4 4 freshRes).rpos)
    ∧ (∀ res s1, (BufStream.withCapacities 4 4 freshRes).read 3 = some (res, s1) →
        ∃ w1, s1.slot = some w1 ∧ w1.buf = c6w.buf ∧ w1.cap = c6w.cap) :=
  c6_read_write_buffers_independent (BufStream.withCapacities 4 4 freshRes) c6w [1, 2] 3 rfl

/-- Writer component of the C8 witness stream: four pending bytes. -/
def c8w : BufWriter :=
  { buf := [], cap := 4, inner := { freshRes with pending := [5, 6, 7, 8] } }

/-- Stream for the C8 witness: read capacity 2, empty window. -/
def c8s : BufStream := { rbuf := [], rpos := 0, rcap := 2, slot := some c8w }

/-- C8: with an empty read window, a read request strictly larger than the
read capacity bypasses the input buffer: it is served by exactly one direct
resource read of the full request, the input buffer's contents and cursor are
untouched, and the bytes come straight from the resource's pending queue. -/
theorem c8_large_read_bypasses_buffer (s : BufStream) (w : BufWriter) (destLen : Nat)
    (hs : s.slot = some w) (hwin : s.rpos = s.rbuf.length)
    (hbig : s.rcap < destLen) (hre : w.inner.readErr = none) :
    s.read destLen = some (.ok (w.inner.pending.take destLen), { s with
      slot := some { w with inner := { w.inner with
        pending := w.inner.pending.drop destLen,
        readCalls := w.inner.readCalls + 1 } } }) := by
  have hle : s.rcap ≤ destLen := Nat.le_of_lt hbig
  simp [BufStream.read, hwin, hle, internalRead, hs, Resource.readBytes, hre]

/-- Witness for C8: reading 3 bytes at capacity 2 from `c8s`. -/
theorem c8_large_read_bypasses_buffer_witness :
    c8s.read 3 = some (.ok (c8w.inner.pending.take 3), { c8s with
      slot := some { c8w with inner := { c8w.inner with
        pending := c8w.inner.pending.drop 3,
        readCalls := c8w.inner.readCalls + 1 } } }) :=
  c8_large_read_bypasses_buffer c8s c8w 3 rfl rfl (by decide) rfl

/-- C9: the optional output-buffer slot is occupied at every observable
point.  Construction yields an occupied slot; on any state with an occupied
slot, `write`, `flush`, `read`, `fill_buf`, `consume`, `get_ref`/`get_mut`
and `into_inner` all complete without hitting the slot's `unwrap` panic
(result `some _`), every stream they return has an occupied slot, and in
particular `into_inner`'s failure path hands back a stream whose slot was
restored to occupied. -/
theorem c9_slot_invariant_holds (rc wc n amt : Nat) (res : Resource) (data : List Nat)
    (s : BufStream) (hs : s.slot.isSome) :
    (BufStream.withCapacities rc wc res).slot.isSome
    ∧ (∃ p, s.write data = some p ∧ p.2.slot.isSome)
    ∧ (∃ p, s.flush = some p ∧ p.2.slot.isSome)
    ∧ (∃ p, s.read n = some p ∧ p.2.slot.isSome)
    ∧ (∃ p, s.fillBuf = some p ∧ p.2.slot.isSome)
    ∧ (s.consume amt).slot.isSome
    ∧ (∃ r, s.getRef = some r)
    ∧ (∃ q, s.intoInner = some q ∧ ∀ s1 e, q = .error (s1, e) → s1.slot.isSome) := by
  obtain ⟨w, hw⟩ : ∃ w, s.slot = some w := Option.isSome_iff_exists.mp hs
  have hfill : ∃ p, s.fillBuf = some p ∧ p.2.slot.isSome := by
    by_cases hp : s.rpos = s.rbuf.length
    · rcases hrb : w.inner.readBytes s.rcap with ⟨res0, r1⟩
      cases res0 with
      | error e =>
        have hF : s.fillBuf = some (.error e,
            { s with slot := some { w with inner := r1 } }) := by
          simp [BufStream.fillBuf, hp, internalRead, hw, hrb]
        exact ⟨_, hF, rfl⟩
      | ok bytes =>
        have hF : s.fillBuf = some (.ok bytes,
            { s with rbuf := bytes, rpos := 0, slot := some { w with inner := r1 } }) := by
          simp [BufStream.fillBuf, hp, internalRead, hw, hrb]
        exact ⟨_, hF, rfl⟩
    · have hF : s.fillBuf = some (.ok (s.rbuf.drop s.rpos), s) := by
        simp [BufStream.fillBuf, hp]
      exact ⟨_, hF, by simp [hw]⟩
  refine ⟨rfl, ?_, ?_, ?_, hfill, ?_, ?_, ?_⟩
  · rcases hwb : w.inner.writeBytes data with ⟨res0, r1⟩
    have hF : s.write data = some (res0,
        { s with slot := some { w with inner := r1 } }) := by
      simp [BufStream.write, hw, hwb]
    exact ⟨_, hF, rfl⟩
  · rcases hfl : w.inner.flushRes with ⟨res0, r1⟩
    have hF : s.flush = some (res0,
        { s with slot := some { w with inner := r1 } }) := by
      simp [BufStream.flush, hw, hfl]
    exact ⟨_, hF, rfl⟩
  · by_cases hc : s.rpos = s.rbuf.length ∧ s.rcap ≤ n
    · rcases hrb : w.inner.readBytes n with ⟨res0, r1⟩
      have hF : s.read n = some (res0,
          { s with slot := some { w with inner := r1 } }) := by
        simp [BufStream.read, hc, internalRead, hw, hrb]
      exact ⟨_, hF, rfl⟩
    · obtain ⟨⟨resF, sF⟩, hF, hSF⟩ := hfill
      cases resF with
      | error e =>
        have hR : s.read n = some (.error e, sF) := by
          simp [BufStream.read, hc, hF]
        exact ⟨_, hR, hSF⟩
      | ok window =>
        have hR : s.read n = some (.ok (window.take (min window.length n)),
            sF.consume (min window.length n)) := by
          simp [BufStream.read, hc, hF]
        refine ⟨_, hR, ?_⟩
        simpa [BufStream.consume] using hSF
  · simp [BufStream.consume, hw]
  · exact ⟨w.inner, by simp [BufStream.getRef, hw]⟩
  · by_cases hb : w.buf.isEmpty
    · have hI : s.intoInner = some (.ok w.inner) := by
        simp [BufStream.intoInner, hw, BufWriter.intoInner, BufWriter.flushBuf, hb]
      refine ⟨_, hI, ?_⟩
      intro s1 e hq
      simp at hq
    · cases hwe : w.inner.writeErr with
      | some f =>
        have hI : s.intoInner = some (.error (
            { s with slot := some { w with inner := { w.inner with
                writeCalls := w.inner.writeCalls + 1 } } },
            IoError.new f.kind f.msg)) := by
          simp [BufStream.intoInner, hw, BufWriter.intoInner, BufWriter.flushBuf, hb,
                Resource.writeBytes, hwe]
        refine ⟨_, hI, ?_⟩
        intro s1 e hq
        simp at hq
        obtain ⟨h1, -⟩ := hq
        subst h1
        rfl
      | none =>
        have hI : s.intoInner = some (.ok { w.inner with
            received := w.inner.received ++ w.buf,
            writeCalls := w.inner.writeCalls + 1 }) := by
          simp [BufStream.intoInner, hw, BufWriter.intoInner, BufWriter.flushBuf, hb,
                Resource.writeBytes, hwe]
        refine ⟨_, hI, ?_⟩
        intro s1 e hq
        simp at hq

/-- Witness for C9 at a fresh stream of capacities 3/3. -/
theorem c9_slot_invariant_holds_witness :
    (BufStream.withCapacities 1 2 freshRes).slot.isSome
    ∧ (∃ p, (BufStream.withCapacities 3 3 freshRes).write [7] = some p ∧ p.2.slot.isSome)
    ∧ (∃ p, (BufStream.withCapacities 3 3 freshRes).flush = some p ∧ p.2.slot.isSome)
    ∧ (∃ p, (BufStream.withCapacities 3 3 freshRes).read 0 = some p ∧ p.2.slot.isSome)
    ∧ (∃ p, (BufStream.withCapacities 3 3 freshRes).fillBuf = some p ∧ p.2.slot.isSome)
    ∧ ((BufStream.withCapacities 3 3 freshRes).consume 1).slot.isSome
    ∧ (∃ r, (BufStream.withCapacities 3 3 freshRes).getRef = some r)
    ∧ (∃ q, (BufStream.withCapacities 3 3 freshRes).intoInner = some q ∧
        ∀ s1 e, q = .error (s1, e) → s1.slot.isSome) :=
  c9_slot_invariant_holds 1 2 0 1 freshRes [7] (BufStream.withCapacities 3 3 freshRes) rfl

/-- Stream for the C10 witness: one staged byte over a resource whose write
fails with an error carrying an OS-code payload. -/
def c10s : BufStream :=
  { rbuf := [], rpos := 0, rcap := 4,
    slot := some { buf := [9], cap := 4,
                   inner := { freshRes with writeErr := some { kind := 5, msg := "denied", payload := some 13 } } } }

/-- C10: whenever `into_inner` fails, the error in the returned pair is the
one rebuilt by `io::Error::new` from the flush error: it carries the flush
error's kind and message and no other payload — any OS error code or wrapped
source of the original error is gone. -/
theorem c10_rebuilt_error_drops_payload (s s1 : BufStream) (e : IoError)
    (h : s.intoInner = some (.error (s1, e))) :
    ∃ w f, s.slot = some w ∧ w.inner.writeErr = some f ∧
      e.kind = f.kind ∧ e.msg = f.msg ∧ e.payload = none := by
  cases hw : s.slot with
  | none => simp [BufStream.intoInner, hw] at h
  | some w =>
    by_cases hb : w.buf.isEmpty
    · simp [BufStream.intoInner, hw, BufWriter.intoInner, BufWriter.flushBuf, hb] at h
    · cases hwe : w.inner.writeErr with
      | none =>
        simp [BufStream.intoInner, hw, BufWriter.intoInner, BufWriter.flushBuf, hb,
              Resource.writeBytes, hwe] at h
      | some f =>
        simp [BufStream.intoInner, hw, BufWriter.intoInner, BufWriter.flushBuf, hb,
              Resource.writeBytes, hwe, IoError.new] at h
        obtain ⟨-, h2⟩ := h
        subst h2
        exact ⟨w, f, rfl, hwe, rfl, rfl, rfl⟩

/-- Witness for C10 at the concrete failing unwrap of `c10s`. -/
theorem c10_rebuilt_error_drops_payload_witness :
    ∃ w f, c10s.slot = some w ∧ w.inner.writeErr = some f ∧
      (IoError.new 5 "denied").kind = f.kind ∧ (IoError.new 5 "denied").msg = f.msg ∧
      (IoError.new 5 "denied").payload = none :=
  c10_rebuilt_error_drops_payload c10s
    { c10s with slot := some { buf := [9], cap := 4,
                               inner := { freshRes with
                                          writeErr := some { kind := 5, msg := "denied", payload := some 13 },
                                          writeCalls := 1 } } }
    (IoError.new 5 "denied") rfl
